import Mathlib

/-!
# Verification of the amman Rust client's process supervisor

Shallow embedding of `src/client-rust/src/test_utils/mod.rs` (the
`AmmanProcess` supervisor) and proofs about its operations.

Modelling conventions:
* The external world (control-client responses, spawn outcomes, OS kill/wait
  outcomes) is an explicit oracle record `Env` passed to each operation.
* Busy-wait loops (`wait_for_port`, the post-spawn pid wait) change no
  supervisor state; they are embedded as trace effects under the assumption
  that they terminate, since an operation that hangs forever returns nothing
  at all in the source either.
* A call to `.expect(..)` on a failed result aborts the process in Rust; an
  operation that can abort returns `Option _`, with `none` for the abort.
* Side effects of each operation are recorded in a `List Eff` trace so that
  statements like "no spawn happened" are expressible.
-/

set_option autoImplicit false

deriving instance DecidableEq for Except

namespace Amman

/-- The two well-known TCP ports of
`test_utils::consts` (`VALIDATOR_PORT` and `VALIDATOR_RPC_PORT`); their
numeric values are environment-level constants that play no role in the
supervisor logic, so ports are embedded as a two-element tag type. -/
inductive Port where
  | validator
  | validatorRpc
deriving DecidableEq, Repr

/-- Observable side effects of a supervisor operation. -/
inductive Eff where
  /-- A pid query over the control channel
      (`request_validator_pid` / `pid_of_amman_running_on_machine`). -/
  | queryPid
  /-- Serialization of an `AmmanConfig` via `write_amman_config`. -/
  | writeConfig
  /-- Spawning the `amman start` command. -/
  | spawn
  /-- `client.request_kill_amman()`. -/
  | requestKill
  /-- OS-level `process.kill()` on the owned handle. -/
  | killOwned
  /-- OS-level `process.wait()` on the owned handle. -/
  | waitOwned
  /-- Spawning the `amman stop` command. -/
  | spawnStop
  /-- Waiting for the `amman stop` command to exit. -/
  | waitStop
  /-- The busy-poll loop until the resolver reports a pid. -/
  | waitPid
  /-- `wait_for_port p`: busy-poll until port `p` accepts connections. -/
  | waitPort (p : Port)
  /-- `wait_for_port_free p`: busy-poll until port `p` stops accepting. -/
  | waitPortFree (p : Port)
deriving DecidableEq, Repr

/-- The error enum `AmmanProcessError`.  `FailedToKillAmman` wraps an
`io::Error` in the source; the wrapped payload is irrelevant to every control
decision and is dropped. -/
inductive AmmanProcessError where
  | AmmanWasAlreadyStarted
  | AmmanAlreadyRunning (pid : Nat)
  | AmmanCannotBeKilledIfNotRunning
  | FailedToKillAmman
deriving DecidableEq, Repr

/-- Modelled from the spec: `AmmanConfig` (the StartupConfig) is an external
configuration object of which the supervisor reads and writes only the
`assets_folder` setting; all remaining settings are abstracted into the
opaque field `rest`. -/
structure AmmanConfig where
  assets_folder : Option String
  rest : Nat
deriving DecidableEq, Repr

/-- The supervisor state `AmmanProcess`.  A `Child` process handle is opaque
to the supervisor (it is only killed/waited/discarded), so it is embedded as
a `Nat` identity; likewise the `AmmanClient` handle.  The two
`PathBuf` fields are strings. -/
structure AmmanProcess where
  process : Option Nat
  pid : Option Nat
  client : Nat
  fixtures : String
  assets_dir : String
deriving DecidableEq, Repr

/-- Oracle for the external world during one supervisor operation. -/
structure Env where
  /-- Result of the first `request_validator_pid` request issued by the
      operation (`Except.error` for any request failure). -/
  pidResp : Except Unit Nat
  /-- Result of the second pid request, issued when `ensure_started` falls
      through to `_start` (which re-queries the resolver). -/
  pidResp2 : Except Unit Nat
  /-- Outcome of `cmd.spawn()` for the `amman start` command: a child handle,
      or an `io::Error`. -/
  spawnResult : Except Unit Nat
  /-- Whether `client.request_kill_amman()` succeeds (failure aborts via
      `.expect`). -/
  requestKillOk : Bool
  /-- Whether `process.kill()` on the owned handle succeeds. -/
  killOk : Bool
  /-- Whether `process.wait()` on the owned handle succeeds. -/
  waitOk : Bool
  /-- Outcome of spawning the `amman stop` command. -/
  stopSpawnResult : Except Unit Nat
  /-- Whether waiting on the `amman stop` command succeeds. -/
  stopWaitOk : Bool
  /-- The pid eventually observed by the post-spawn busy-poll loop (observed
      and discarded by the source). -/
  observedPid : Nat
deriving DecidableEq, Repr

/-- `pid_of_amman_running_on_machine`: maps a control-client response to an
optional pid, sending every failure, of any error kind `ε`, to `none`. -/
def pid_of_amman_running_on_machine {ε : Type} (resp : Except ε Nat) :
    Option Nat :=
  match resp with
  | .ok pid => some pid
  | .error _ => none

/-- `AmmanProcess::new`: constructs a supervisor around a client handle,
eagerly resolving any already-running pid.  The two fixture paths are
canonicalized filesystem lookups in the source; here they are inputs. -/
def AmmanProcess.new (pidResp : Except Unit Nat) (client : Nat)
    (fixtures assets_dir : String) : AmmanProcess :=
  { process := none
    pid := pid_of_amman_running_on_machine pidResp
    client := client
    fixtures := fixtures
    assets_dir := assets_dir }

/-- `AmmanProcess::started`: pure liveness predicate. -/
def AmmanProcess.started (self : AmmanProcess) : Bool :=
  self.process.isSome || self.pid.isSome

/-- `impl Clone for AmmanProcess`: the process handle cannot be cloned, all
other fields are copied. -/
def AmmanProcess.clone (self : AmmanProcess) : AmmanProcess :=
  { process := none
    pid := self.pid
    client := self.client
    fixtures := self.fixtures
    assets_dir := self.assets_dir }

/-- Result of a (possibly config-carrying) start operation: the returned
`Result`, the successor state, the config that was serialized to disk (if
any), and the effect trace. -/
structure StartOut where
  res : Except AmmanProcessError Unit
  state : AmmanProcess
  written : Option AmmanConfig
  trace : List Eff
deriving DecidableEq, Repr

/-- `AmmanProcess::_start` with the resolver response for its own pid check
passed explicitly (`start` uses `env.pidResp`; the delegation inside
`ensure_started` uses `env.pidResp2`, since that call issues a second
request).  Mirrors the source order: handle check, resolver check, config
write (injecting `assets_dir` when the setting is absent), spawn, pid wait
loop, two port waits, record the handle. -/
def AmmanProcess.startCore (pidResp : Except Unit Nat) (env : Env)
    (amman_config : Option AmmanConfig) (self : AmmanProcess) : StartOut :=
  if self.process.isSome then
    ⟨.error .AmmanWasAlreadyStarted, self, none, []⟩
  else
    match pid_of_amman_running_on_machine pidResp with
    | some pid => ⟨.error (.AmmanAlreadyRunning pid), self, none, [.queryPid]⟩
    | none =>
      let written : Option AmmanConfig :=
        amman_config.map fun config =>
          if config.assets_folder.isNone then
            { config with assets_folder := some self.assets_dir }
          else config
      let writeTrace : List Eff :=
        if amman_config.isSome then [.writeConfig] else []
      match env.spawnResult with
      | .error _ =>
        ⟨.error .FailedToKillAmman, self, written,
          [.queryPid] ++ writeTrace ++ [.spawn]⟩
      | .ok handle =>
        ⟨.ok (), { self with process := some handle }, written,
          [.queryPid] ++ writeTrace ++
            [.spawn, .waitPid, .waitPort .validator, .waitPort .validatorRpc]⟩

/-- `AmmanProcess::start`: `_start` with no config. -/
def AmmanProcess.start (env : Env) (self : AmmanProcess) : StartOut :=
  AmmanProcess.startCore env.pidResp env none self

/-- `AmmanProcess::ensure_started`. -/
def AmmanProcess.ensure_started (env : Env) (self : AmmanProcess) :
    StartOut :=
  if self.process.isSome then ⟨.ok (), self, none, []⟩
  else
    match env.pidResp with
    | .ok pid => ⟨.ok (), { self with pid := some pid }, none, [.queryPid]⟩
    | .error _ =>
      let o := AmmanProcess.startCore env.pidResp2 env none self
      ⟨o.res, o.state, o.written, .queryPid :: o.trace⟩

/-- Result of a kill operation. -/
structure KillOut where
  res : Except AmmanProcessError Unit
  state : AmmanProcess
  trace : List Eff
deriving DecidableEq, Repr

/-- `AmmanProcess::kill`.  Returns `none` when `request_kill_amman` fails and
the `.expect` aborts the process. -/
def AmmanProcess.kill (env : Env) (kill_external : Bool)
    (self : AmmanProcess) : Option KillOut :=
  if !self.started then
    some ⟨.error .AmmanCannotBeKilledIfNotRunning, self, []⟩
  else
    match self.process with
    | some _ =>
      if env.requestKillOk then
        if env.killOk then
          if env.waitOk then
            some ⟨.ok (), { self with process := none },
              [.requestKill, .killOwned, .waitOwned]⟩
          else
            some ⟨.error .FailedToKillAmman, self,
              [.requestKill, .killOwned, .waitOwned]⟩
        else
          some ⟨.error .FailedToKillAmman, self, [.requestKill, .killOwned]⟩
      else none
    | none =>
      match self.pid with
      | some _ =>
        if kill_external then
          match env.stopSpawnResult with
          | .error _ =>
            some ⟨.error .FailedToKillAmman, self, [.spawnStop]⟩
          | .ok _ =>
            if env.stopWaitOk then
              some ⟨.ok (), { self with pid := none },
                [.spawnStop, .waitStop, .waitPortFree .validator,
                 .waitPortFree .validatorRpc]⟩
            else
              some ⟨.error .FailedToKillAmman, self, [.spawnStop, .waitStop]⟩
        else
          some ⟨.ok (), self, []⟩
      | none => some ⟨.ok (), self, []⟩

/-! ## Concrete states and environments used by witnesses -/

/-- An environment in which every external interaction succeeds and the
resolver knows no pid (fields in declaration order: `pidResp`, `pidResp2`,
`spawnResult`, `requestKillOk`, `killOk`, `waitOk`, `stopSpawnResult`,
`stopWaitOk`, `observedPid`). -/
def envFresh : Env := ⟨.error (), .error (), .ok 7, true, true, true, .ok 9, true, 11⟩

/-- Like `envFresh` but the resolver reports pid 5 on the first query. -/
def envBusy : Env := ⟨.ok 5, .error (), .ok 7, true, true, true, .ok 9, true, 11⟩

/-- A supervisor that holds a process handle and no external pid. -/
def sOwned : AmmanProcess := ⟨some 3, none, 0, "fx", "as"⟩

/-- A supervisor that holds no process handle and no external pid. -/
def sIdle : AmmanProcess := ⟨none, none, 0, "fx", "as"⟩

/-- A supervisor that holds no process handle but knows external pid 5. -/
def sExternal : AmmanProcess := ⟨none, some 5, 0, "fx", "as"⟩

/-- A supervisor that holds a process handle and also knows external pid 5. -/
def sBoth : AmmanProcess := ⟨some 3, some 5, 0, "fx", "as"⟩

/-! ## Helper lemmas -/

/-- A successful `_start` only adds a process handle: the resulting state is
the input state with `process` set. -/
theorem startCore_ok_state (pidResp : Except Unit Nat) (env : Env)
    (cfg : Option AmmanConfig) (s : AmmanProcess)
    (h : (AmmanProcess.startCore pidResp env cfg s).res = .ok ()) :
    ∃ hd, (AmmanProcess.startCore pidResp env cfg s).state =
      { s with process := some hd } := by
  unfold AmmanProcess.startCore at h ⊢
  by_cases hp : s.process.isSome
  · simp [hp] at h
  · cases hr : pid_of_amman_running_on_machine pidResp with
    | some p => simp [hp, hr] at h
    | none =>
      cases hs : env.spawnResult with
      | error e => simp [hp, hr, hs] at h
      | ok hd => exact ⟨hd, by simp [hp, hr, hs]⟩

/-- A successful `kill` from a state with no external pid removes the owned
handle and changes nothing else, so the resulting state is not started. -/
theorem kill_ok_state_of_no_pid (env : Env) (kill_external : Bool)
    (s : AmmanProcess) (k : KillOut) (hpid : s.pid = none)
    (hk : AmmanProcess.kill env kill_external s = some k)
    (hres : k.res = .ok ()) : k.state = { s with process := none } := by
  unfold AmmanProcess.kill at hk
  cases hp : s.process with
  | none =>
    simp [AmmanProcess.started, hp, hpid] at hk
    rw [← hk] at hres
    simp at hres
  | some hd =>
    simp [AmmanProcess.started, hp, hpid] at hk
    by_cases h1 : env.requestKillOk
    · by_cases h2 : env.killOk
      · by_cases h3 : env.waitOk
        · simp [h1, h2, h3] at hk
          rw [← hk]
          simp [hpid]
        · simp [h1, h2, h3] at hk
          rw [← hk] at hres
          simp at hres
      · simp [h1, h2] at hk
        rw [← hk] at hres
        simp at hres
    · simp [h1] at hk

/-! ## Claim theorems -/

/-- C6: `started()` is a pure predicate that holds exactly when the
`ProcessHandle` field is present or the `ExternalPid` field is present. -/
theorem started_iff_handle_or_pid (s : AmmanProcess) :
    s.started = true ↔ (s.process.isSome = true ∨ s.pid.isSome = true) := by
  simp [AmmanProcess.started]

/-- C8: the PID Resolver returns the pid exactly when the request succeeds
and maps every failure, of every error kind, uniformly to "no pid known". -/
theorem pid_resolver_uniform_on_failure (ε : Type) (p : Nat) (e : ε) :
    pid_of_amman_running_on_machine (Except.ok p : Except ε Nat) = some p ∧
    pid_of_amman_running_on_machine (Except.error e : Except ε Nat) = none :=
  ⟨rfl, rfl⟩

/-- C3: `_start` fails with `AmmanWasAlreadyStarted` whenever a process
handle is held (regardless of what the resolver would answer), and with
`AmmanAlreadyRunning pid` when no handle is held but the resolver reports a
pid; the handle check precedes the resolver query. -/
theorem start_refusal_precedence (env : Env) (cfg : Option AmmanConfig)
    (s : AmmanProcess) (hd p : Nat) :
    (s.process = some hd →
      (AmmanProcess.startCore env.pidResp env cfg s).res =
        .error .AmmanWasAlreadyStarted ∧
      (AmmanProcess.startCore env.pidResp env cfg s).trace = []) ∧
    (s.process = none → pid_of_amman_running_on_machine env.pidResp = some p →
      (AmmanProcess.startCore env.pidResp env cfg s).res =
        .error (.AmmanAlreadyRunning p)) := by
  constructor
  · intro hp
    unfold AmmanProcess.startCore
    simp [hp]
  · intro hp hr
    unfold AmmanProcess.startCore
    simp [hp, hr]

/-- Witness for C3: with a held handle, start is refused as `AlreadyStarted`
even while the resolver reports pid 5; without a handle it is refused as
`AlreadyRunning 5`. -/
theorem start_refusal_precedence_witness :
    ((AmmanProcess.startCore envBusy.pidResp envBusy none sOwned).res =
        .error .AmmanWasAlreadyStarted ∧
      (AmmanProcess.startCore envBusy.pidResp envBusy none sOwned).trace = []) ∧
    (AmmanProcess.startCore envBusy.pidResp envBusy none sIdle).res =
      .error (.AmmanAlreadyRunning 5) :=
  ⟨(start_refusal_precedence envBusy none sOwned 3 5).1 rfl,
   (start_refusal_precedence envBusy none sIdle 3 5).2 rfl rfl⟩

/-- C4: on a freshly constructed supervisor whose construction-time resolver
query reported no pid, any first `kill` fails with
`CannotKillIfNotRunning` and changes nothing. -/
theorem kill_on_fresh_fails (pidResp : Except Unit Nat) (client : Nat)
    (fixtures assets_dir : String) (env : Env) (kill_external : Bool)
    (h : pid_of_amman_running_on_machine pidResp = none) :
    AmmanProcess.kill env kill_external
        (AmmanProcess.new pidResp client fixtures assets_dir) =
      some ⟨.error .AmmanCannotBeKilledIfNotRunning,
            AmmanProcess.new pidResp client fixtures assets_dir, []⟩ := by
  unfold AmmanProcess.kill
  simp [AmmanProcess.new, AmmanProcess.started, h]

/-- Witness for C4: a supervisor built while the resolver answered with a
request failure cannot be killed. -/
theorem kill_on_fresh_fails_witness :
    pid_of_amman_running_on_machine (Except.error () : Except Unit Nat) = none ∧
    AmmanProcess.kill envFresh true
        (AmmanProcess.new (Except.error ()) 0 "fx" "as") =
      some ⟨.error .AmmanCannotBeKilledIfNotRunning,
            AmmanProcess.new (Except.error ()) 0 "fx" "as", []⟩ :=
  ⟨rfl, kill_on_fresh_fails (Except.error ()) 0 "fx" "as" envFresh true rfl⟩

/-- C5: `ensure_started` succeeds immediately with no effects when a handle
is held; adopts the resolver's pid (querying once, spawning nothing) when no
handle is held but the query succeeds; delegates to `_start` otherwise; and
never spawns while a process is reachable via the control channel. -/
theorem ensure_started_spec (env : Env) (s : AmmanProcess) (hd p : Nat) :
    (s.process = some hd →
      AmmanProcess.ensure_started env s = ⟨.ok (), s, none, []⟩) ∧
    (s.process = none → env.pidResp = .ok p →
      AmmanProcess.ensure_started env s =
        ⟨.ok (), { s with pid := some p }, none, [.queryPid]⟩) ∧
    (s.process = none → env.pidResp = .error () →
      AmmanProcess.ensure_started env s =
        ⟨(AmmanProcess.startCore env.pidResp2 env none s).res,
         (AmmanProcess.startCore env.pidResp2 env none s).state,
         (AmmanProcess.startCore env.pidResp2 env none s).written,
         .queryPid :: (AmmanProcess.startCore env.pidResp2 env none s).trace⟩) ∧
    ((s.process.isSome = true ∨ env.pidResp = .ok p) →
      Eff.spawn ∉ (AmmanProcess.ensure_started env s).trace) := by
  refine ⟨?_, ?_, ?_, ?_⟩
  · intro hp
    unfold AmmanProcess.ensure_started
    simp [hp]
  · intro hp hr
    unfold AmmanProcess.ensure_started
    simp [hp, hr]
  · intro hp hr
    unfold AmmanProcess.ensure_started
    simp [hp, hr]
  · intro hcase
    unfold AmmanProcess.ensure_started
    cases hcase with
    | inl hp => simp [hp]
    | inr hr =>
      by_cases hp : s.process.isSome
      · simp [hp]
      · simp [hp, hr]

/-- Witness for C5: the three branches at concrete inputs, and no spawn while
the resolver reports pid 5. -/
theorem ensure_started_spec_witness :
    AmmanProcess.ensure_started envFresh sOwned = ⟨.ok (), sOwned, none, []⟩ ∧
    AmmanProcess.ensure_started envBusy sIdle =
      ⟨.ok (), sExternal, none, [.queryPid]⟩ ∧
    AmmanProcess.ensure_started envFresh sIdle =
      ⟨(AmmanProcess.startCore envFresh.pidResp2 envFresh none sIdle).res,
       (AmmanProcess.startCore envFresh.pidResp2 envFresh none sIdle).state,
       (AmmanProcess.startCore envFresh.pidResp2 envFresh none sIdle).written,
       .queryPid ::
         (AmmanProcess.startCore envFresh.pidResp2 envFresh none sIdle).trace⟩ ∧
    Eff.spawn ∉ (AmmanProcess.ensure_started envBusy sIdle).trace :=
  ⟨(ensure_started_spec envFresh sOwned 3 5).1 rfl,
   (ensure_started_spec envBusy sIdle 3 5).2.1 rfl rfl,
   (ensure_started_spec envFresh sIdle 3 5).2.2.1 rfl rfl,
   (ensure_started_spec envBusy sIdle 3 5).2.2.2 (Or.inr rfl)⟩

/-- C7: when `_start` is given a config whose assets-folder setting is
absent, the config serialized to disk carries the supervisor's own
`assets_dir`; a present setting is serialized unchanged. -/
theorem start_injects_assets_folder (pidResp : Except Unit Nat) (env : Env)
    (config : AmmanConfig) (s : AmmanProcess) (a : String)
    (hp : s.process = none)
    (hr : pid_of_amman_running_on_machine pidResp = none) :
    (config.assets_folder = none →
      (AmmanProcess.startCore pidResp env (some config) s).written =
        some { config with assets_folder := some s.assets_dir }) ∧
    (config.assets_folder = some a →
      (AmmanProcess.startCore pidResp env (some config) s).written =
        some config) := by
  constructor
  · intro hc
    unfold AmmanProcess.startCore
    cases hs : env.spawnResult <;> simp [hp, hr, hs, hc]
  · intro hc
    unfold AmmanProcess.startCore
    cases hs : env.spawnResult <;> simp [hp, hr, hs, hc]

/-- Witness for C7: at a concrete start call, an absent assets-folder setting
is replaced by the supervisor's assets directory and a present one is kept. -/
theorem start_injects_assets_folder_witness :
    (AmmanProcess.startCore (Except.error ()) envFresh
        (some ⟨none, 2⟩) sIdle).written = some ⟨some "as", 2⟩ ∧
    (AmmanProcess.startCore (Except.error ()) envFresh
        (some ⟨some "other", 2⟩) sIdle).written = some ⟨some "other", 2⟩ :=
  ⟨(start_injects_assets_folder (Except.error ()) envFresh ⟨none, 2⟩ sIdle
      "other" rfl rfl).1 rfl,
   (start_injects_assets_folder (Except.error ()) envFresh ⟨some "other", 2⟩
      sIdle "other" rfl rfl).2 rfl⟩

/-- C9: a successful `_start` records the process handle and leaves the pid,
client, fixtures and assets fields exactly as they were. -/
theorem start_ok_frame (pidResp : Except Unit Nat) (env : Env)
    (cfg : Option AmmanConfig) (s : AmmanProcess)
    (h : (AmmanProcess.startCore pidResp env cfg s).res = .ok ()) :
    (AmmanProcess.startCore pidResp env cfg s).state.pid = s.pid ∧
    (AmmanProcess.startCore pidResp env cfg s).state.client = s.client ∧
    (AmmanProcess.startCore pidResp env cfg s).state.fixtures = s.fixtures ∧
    (AmmanProcess.startCore pidResp env cfg s).state.assets_dir =
      s.assets_dir ∧
    (AmmanProcess.startCore pidResp env cfg s).state.process.isSome = true := by
  obtain ⟨hd, hst⟩ := startCore_ok_state pidResp env cfg s h
  rw [hst]
  simp

/-- Witness for C9: starting a supervisor that already knows external pid 5
succeeds and leaves that pid (and all other fields) untouched while
recording the new handle. -/
theorem start_ok_frame_witness :
    (AmmanProcess.startCore (Except.error ()) envFresh none sExternal).res =
      .ok () ∧
    ((AmmanProcess.startCore (Except.error ()) envFresh none
        sExternal).state.pid = sExternal.pid ∧
      (AmmanProcess.startCore (Except.error ()) envFresh none
        sExternal).state.client = sExternal.client ∧
      (AmmanProcess.startCore (Except.error ()) envFresh none
        sExternal).state.fixtures = sExternal.fixtures ∧
      (AmmanProcess.startCore (Except.error ()) envFresh none
        sExternal).state.assets_dir = sExternal.assets_dir ∧
      (AmmanProcess.startCore (Except.error ()) envFresh none
        sExternal).state.process.isSome = true) :=
  ⟨rfl, start_ok_frame (Except.error ()) envFresh none sExternal rfl⟩

/-- C10: `kill false` on a supervisor that only knows an external pid
succeeds, performs no kill action, and leaves the pid set, so the supervisor
still reports started. -/
theorem kill_external_false_noop (env : Env) (s : AmmanProcess) (p : Nat)
    (hp : s.process = none) (hpid : s.pid = some p) :
    AmmanProcess.kill env false s = some ⟨.ok (), s, []⟩ ∧
    s.started = true := by
  unfold AmmanProcess.kill
  simp [AmmanProcess.started, hp, hpid]

/-- Witness for C10: refusing to kill external pid 5 still returns success
with the supervisor unchanged and started. -/
theorem kill_external_false_noop_witness :
    AmmanProcess.kill envFresh false sExternal =
      some ⟨.ok (), sExternal, []⟩ ∧
    sExternal.started = true :=
  kill_external_false_noop envFresh sExternal 5 rfl rfl

/-- C1 counterexample: a successful owned-handle `kill` on a supervisor that
also knows external pid 5 clears only the handle, and `started()` is still
true immediately afterwards. -/
theorem kill_success_can_leave_started_cex :
    AmmanProcess.kill envFresh true sBoth =
      some ⟨.ok (), sExternal, [.requestKill, .killOwned, .waitOwned]⟩ ∧
    AmmanProcess.started sExternal = true :=
  ⟨rfl, rfl⟩

/-- C1 amended: when the `ExternalPid` field is absent, a successful `kill`
leaves `started()` false; and in a start, kill, start sequence against one
instance holding neither handle nor pid initially, where each call succeeds,
`started()` alternates false, true, false, true. -/
theorem kill_clears_started_when_no_pid :
    (∀ (env : Env) (kill_external : Bool) (s : AmmanProcess) (k : KillOut),
      s.pid = none → AmmanProcess.kill env kill_external s = some k →
      k.res = .ok () → AmmanProcess.started k.state = false) ∧
    (∀ (e1 e2 e3 : Env) (s0 : AmmanProcess) (k : KillOut),
      s0.process = none → s0.pid = none →
      (AmmanProcess.start e1 s0).res = .ok () →
      AmmanProcess.kill e2 true (AmmanProcess.start e1 s0).state = some k →
      k.res = .ok () →
      (AmmanProcess.start e3 k.state).res = .ok () →
      AmmanProcess.started s0 = false ∧
      AmmanProcess.started (AmmanProcess.start e1 s0).state = true ∧
      AmmanProcess.started k.state = false ∧
      AmmanProcess.started (AmmanProcess.start e3 k.state).state = true) := by
  have main : ∀ (env : Env) (kill_external : Bool) (s : AmmanProcess)
      (k : KillOut), s.pid = none →
      AmmanProcess.kill env kill_external s = some k →
      k.res = .ok () → AmmanProcess.started k.state = false := by
    intro env kill_external s k hpid hk hres
    rw [kill_ok_state_of_no_pid env kill_external s k hpid hk hres]
    simp [AmmanProcess.started, hpid]
  refine ⟨main, ?_⟩
  intro e1 e2 e3 s0 k h0p h0pid h1 hk hkres h3
  simp only [AmmanProcess.start] at h1 hk h3 ⊢
  obtain ⟨hd1, hst1⟩ := startCore_ok_state e1.pidResp e1 none s0 h1
  have hpid1 :
      (AmmanProcess.startCore e1.pidResp e1 none s0).state.pid = none := by
    rw [hst1]
    exact h0pid
  refine ⟨by simp [AmmanProcess.started, h0p, h0pid], ?_, ?_, ?_⟩
  · rw [hst1]
    simp [AmmanProcess.started]
  · exact main e2 true _ k hpid1 hk hkres
  · obtain ⟨hd3, hst3⟩ := startCore_ok_state e3.pidResp e3 none k.state h3
    rw [hst3]
    simp [AmmanProcess.started]

/-- Witness for the amended C1: the concrete start, kill, start sequence from
the idle supervisor, with the intermediate kill result spelled out, shows the
false, true, false, true alternation. -/
theorem kill_clears_started_when_no_pid_witness :
    AmmanProcess.started sIdle = false ∧
    AmmanProcess.started (AmmanProcess.start envFresh sIdle).state = true ∧
    AmmanProcess.started
      ((⟨.ok (), sIdle, [.requestKill, .killOwned, .waitOwned]⟩ :
        KillOut)).state = false ∧
    AmmanProcess.started
      (AmmanProcess.start envFresh
        ((⟨.ok (), sIdle, [.requestKill, .killOwned, .waitOwned]⟩ :
          KillOut)).state).state = true :=
  kill_clears_started_when_no_pid.2 envFresh envFresh envFresh sIdle
    ⟨.ok (), sIdle, [.requestKill, .killOwned, .waitOwned]⟩
    rfl rfl rfl rfl rfl rfl

/-- C2 counterexample: cloning a supervisor that was started via its own
spawn and never resolved a pid yields a clone whose `started()` is false. -/
theorem clone_of_owned_not_started_cex :
    sOwned.process.isSome = true ∧
    AmmanProcess.started (AmmanProcess.clone sOwned) = false :=
  ⟨rfl, rfl⟩

/-- C2 amended: the clone of a handle-holding supervisor drops the handle,
copies the pid, client, fixtures and assets fields unchanged, and its
`started()` equals the presence of the original's `ExternalPid`. -/
theorem clone_copies_all_but_handle (s : AmmanProcess) (hd : Nat)
    (_h : s.process = some hd) :
    (AmmanProcess.clone s).process = none ∧
    (AmmanProcess.clone s).pid = s.pid ∧
    (AmmanProcess.clone s).client = s.client ∧
    (AmmanProcess.clone s).fixtures = s.fixtures ∧
    (AmmanProcess.clone s).assets_dir = s.assets_dir ∧
    (AmmanProcess.clone s).started = s.pid.isSome := by
  simp [AmmanProcess.clone, AmmanProcess.started]

/-- Witness for the amended C2: cloning a supervisor that holds handle 3 and
knows pid 5 copies everything but the handle. -/
theorem clone_copies_all_but_handle_witness :
    (AmmanProcess.clone sBoth).process = none ∧
    (AmmanProcess.clone sBoth).pid = sBoth.pid ∧
    (AmmanProcess.clone sBoth).client = sBoth.client ∧
    (AmmanProcess.clone sBoth).fixtures = sBoth.fixtures ∧
    (AmmanProcess.clone sBoth).assets_dir = sBoth.assets_dir ∧
    (AmmanProcess.clone sBoth).started = sBoth.pid.isSome :=
  clone_copies_all_but_handle sBoth 3 rfl

end Amman
